import Mathlib

/-!
Shallow embedding of two py3status modules:
  * `py3status/modules/updates.py` — the update-count aggregator
    (namespace `Updates`),
  * `py3status/modules/pew.py` — the notification watcher
    (namespace `Pew`).

External collaborators (the py3 host SDK) are modelled as inputs:
`py3.command_output` either returns a stdout string or raises a
`CommandError` carrying an output string, so a single child-process run is a
`CmdResult`; `py3.check_commands` is a `String → Bool` probe; the
placeholder list of an explicitly configured format is an input list.
-/

namespace Py3status

/-- Python `s.split("\n")`: cut `s` at every newline, keeping empty pieces;
`"".split("\n") = [""]`. -/
def py_split_nl (s : String) : List String :=
  (s.toList.foldr
    (fun c acc =>
      match acc with
      | [] => [[]]
      | a :: as => if c = '\n' then [] :: a :: as else (c :: a) :: as)
    [[]]).map fun l => String.mk l

/-- Python `s.splitlines()` for newline-separated text: like
`s.split("\n")` except that a trailing newline does not produce a final
empty entry, and `"".splitlines() = []`. -/
def splitlines (s : String) : List String :=
  let parts := py_split_nl s
  if parts.getLast? = some "" then parts.dropLast else parts

/-- Test whether `needle` occurs at the head of `hay`. -/
def chars_prefix_of (needle hay : List Char) : Bool :=
  match needle, hay with
  | [], _ => true
  | _ :: _, [] => false
  | c :: cs, d :: ds => c = d && chars_prefix_of cs ds

/-- Does `needle` occur as a contiguous run somewhere in `hay`. -/
def chars_infix_of (needle hay : List Char) : Bool :=
  match hay with
  | [] => needle.isEmpty
  | _ :: t => chars_prefix_of needle hay || chars_infix_of needle t

/-- Python `needle in hay` on strings: substring containment. -/
def py_contains (needle hay : String) : Bool :=
  chars_infix_of needle.toList hay.toList

/-- Python `s.capitalize()`: first character upper-cased, the rest
lower-cased. -/
def py_capitalize (s : String) : String :=
  match s.toList with
  | [] => ""
  | c :: cs => String.mk (c.toUpper :: cs.map Char.toLower)

namespace Updates

/-- Outcome of one `py3.command_output(command)` call: either a normal
stdout string, or a `CommandError` carrying its `output` attribute. -/
inductive CmdResult where
  | ok (output : String)
  | err (output : String)
deriving DecidableEq, Repr

/-- The backend classes defined in `updates.py`.  `generic` is the base
class `Update`, used directly for pacman, yay, xbps, pkg. -/
inductive BackendKind where
  | generic
  | apt
  | apk
  | cower
  | eopkg
  | zypper
deriving DecidableEq, Repr

/-- Method `Update.get_command_output`:
``
try: return self.parent.py3.command_output(self.command)
except self.parent.py3.CommandError: return ''
`` -/
def Update.get_command_output : CmdResult → Except String String
  | .ok o => .ok o
  | .err _ => .ok ""

/-- Method `Cower.get_command_output`:
``
try:
    self.parent.py3.command_output(self.command)
    return ''
except self.parent.py3.CommandError as ce:
    return ce.output
`` -/
def Cower.get_command_output : CmdResult → Except String String
  | .ok _ => .ok ""
  | .err o => .ok o

/-- Method `Eopkg.get_command_output`:
``
output = self.parent.py3.command_output(self.command)
if "No packages to upgrade." in output: return ''
return output
``
Note there is no `try`/`except` here: a `CommandError` propagates. -/
def Eopkg.get_command_output : CmdResult → Except String String
  | .ok o =>
      if py_contains "No packages to upgrade." o then .ok "" else .ok o
  | .err o => .error o

/-- Method dispatch for `get_command_output`: `Cower` and `Eopkg` override
the base implementation, every other class inherits `Update`'s. -/
def get_command_output : BackendKind → CmdResult → Except String String
  | .cower, r => Cower.get_command_output r
  | .eopkg, r => Eopkg.get_command_output r
  | _, r => Update.get_command_output r

/-- Method dispatch for `count_updates` over the class hierarchy:
base `Update.count_updates` is `len(self.get_command_output().splitlines())`;
`Apt`/`Apk` use `len(... .splitlines()[1:])`;
`Zypper` uses `len([x for x in lines if x][4:])`. -/
def count_updates (k : BackendKind) (r : CmdResult) : Except String Nat :=
  (get_command_output k r).map fun o =>
    match k with
    | .apt => ((splitlines o).drop 1).length
    | .apk => ((splitlines o).drop 1).length
    | .zypper => (((splitlines o).filter fun x => x != "").drop 4).length
    | _ => (splitlines o).length

/-- The `managers` registry literal of `post_config_hook`. -/
def managers : List (String × List String) :=
  [("pacman", ["checkupdates"]),
   ("cower", ["cower", "-u"]),
   ("yay", ["yay", "--query", "--upgrades", "--aur"]),
   ("apk", ["apk", "version", "-l", "\"<\""]),
   ("apt", ["apt", "list", "--upgradeable"]),
   ("eopkg", ["eopkg", "list-upgrades"]),
   ("pkg", ["pkg", "upgrade", "--dry-run", "--quiet"]),
   ("xbps", ["xbps-install", "--update", "--dry-run"]),
   ("zypper", ["zypper", "list-updates"])]

/-- Lookup `globals()[className]` restricted to the module-level `Update`
subclasses of `updates.py`; `none` models a `KeyError`. -/
def globals_lookup (className : String) : Option BackendKind :=
  if className = "Update" then some .generic
  else if className = "Apt" then some .apt
  else if className = "Apk" then some .apk
  else if className = "Cower" then some .cower
  else if className = "Eopkg" then some .eopkg
  else if className = "Zypper" then some .zypper
  else none

/-- Class resolution `try: backend = globals()[name.capitalize()] except KeyError: backend = Update`. -/
def backend_class (name : String) : BackendKind :=
  (globals_lookup (py_capitalize name)).getD .generic

/-- The configuration facts `post_config_hook` consumes from the host:
the placeholder list of an explicitly configured `format` (or `none` when
`format` is unset and auto-derived), and the `py3.check_commands` probe. -/
structure Config where
  explicitPlaceholders : Option (List String)
  checkCmd : String → Bool

/-- The `binaries` list built by `post_config_hook`: probed only when no
explicit format is configured, else left empty. -/
def binaries_of (cfg : Config) : List String :=
  match cfg.explicitPlaceholders with
  | some _ => []
  | none => (managers.filter fun m => cfg.checkCmd (m.2.headD "")).map Prod.fst

/-- Model of `py3.get_placeholders_list(self.format)`: for an explicit format this
is the host-extracted placeholder list (an input); the auto-derived format
references exactly one placeholder per probed binary. -/
def placeholders_of (cfg : Config) : List String :=
  match cfg.explicitPlaceholders with
  | some ps => ps
  | none => binaries_of cfg

/-- Loop body of the backend-construction loop of `post_config_hook`:
``
if name in placeholders:
    if name in binaries or self.py3.check_commands(command[0]):
        ... self.backends.append(backend(self, name, command))
`` -/
def select_backend (cfg : Config) (m : String × List String) :
    Option (String × BackendKind) :=
  if (placeholders_of cfg).contains m.1 &&
      ((binaries_of cfg).contains m.1 || cfg.checkCmd (m.2.headD "")) then
    some (m.1, backend_class m.1)
  else
    none

/-- The list `self.backends` as computed by `post_config_hook`. -/
def post_config_backends (cfg : Config) : List (String × BackendKind) :=
  managers.filterMap (select_backend cfg)

/-- Python `dict.update({name: c})` on an insertion-ordered dict modelled
as an association list: replace in place when the key exists, else append. -/
def dict_update (d : List (String × Nat)) (name : String) (c : Nat) :
    List (String × Nat) :=
  if d.any fun p => p.1 = name then
    d.map fun p => if p.1 = name then (name, c) else p
  else
    d ++ [(name, c)]

/-- The `for backend in self.backends: update_data.update(backend.get_updates())`
loop of `Py3status.updates`, threading the local `update_data` dict; a
`CommandError` raised by a backend propagates out of the loop. -/
def updates_loop (update_data : List (String × Nat)) :
    List (String × BackendKind) → (String → CmdResult) →
    Except String (List (String × Nat))
  | [], _ => .ok update_data
  | b :: rest, results =>
      match count_updates b.2 (results b.1) with
      | .error e => .error e
      | .ok c => updates_loop (dict_update update_data b.1 c) rest results

/-- One `Py3status.updates` poll: `update_data = {}` is rebuilt from
scratch, then filled from the fixed backend list; `results name` is the
outcome of that backend's child process on this poll. -/
def updates (backends : List (String × BackendKind))
    (results : String → CmdResult) : Except String (List (String × Nat)) :=
  updates_loop [] backends results

end Updates

namespace Pew

/-- The process-wide notification state of `pew.py`: the attributes
`self.summary`, `self.body` (strings once set, `None` after a clear) and
`self.urgent`. -/
structure NotificationState where
  summary : Option String
  body : Option String
  urgent : Bool
deriving DecidableEq, Repr

/-- The normalization `" ".join(s.split("\n"))` applied per field by
`_show_notification`. -/
def join_on_space (s : String) : String :=
  String.intercalate " " (py_split_nl s)

/-- Method `_hide_notification`: `self.body, self.summary, self.urgent = None, None, False`. -/
def hide_notification : NotificationState :=
  { summary := none, body := none, urgent := false }

/-- Method `_show_notification`, statement by statement, on the stringified
positional argument list of the bus message:
``
self.body = " ".join(notification[4].split("\n"))
self.summary = " ".join(notification[3].split("\n"))
self.urgent = True
``
An `IndexError` aborts the handler; the error value carries the state at
the moment the exception is raised (assignments already executed persist). -/
def show_notification (st : NotificationState) (args : List String) :
    Except NotificationState NotificationState :=
  match args.get? 4 with
  | none => .error st
  | some a4 =>
      let st1 := { st with body := some (join_on_space a4) }
      match args.get? 3 with
      | none => .error st1
      | some a3 =>
          let st2 := { st1 with summary := some (join_on_space a3) }
          .ok { st2 with urgent := true }

/-- The states of `NotificationState` observable at the instants the
watcher leaves it alone: after `post_config_hook`'s initial clear, after a
notification event has been handled, and after a timeout clear. -/
inductive Reachable : NotificationState → Prop where
  | init : Reachable hide_notification
  | notify (s s' : NotificationState) (args : List String) :
      Reachable s → show_notification s args = .ok s' → Reachable s'
  | clear (s : NotificationState) : Reachable s → Reachable hide_notification

end Pew

end Py3status


open Py3status Py3status.Updates Py3status.Pew

/-! ## Helper lemmas -/

/-- Dropping one element gives `max 0 (length - 1)` elements. -/
theorem length_drop_one_eq_max (l : List String) :
    (((l.drop 1).length : Int)) = max 0 ((l.length : Int) - 1) := by
  cases l with
  | nil => simp
  | cons a t => simp [List.length_drop]

/-- Inversion for a successful `show_notification` run: the result state is
built from the arguments at indices 3 and 4. -/
theorem show_notification_ok_shape {st s' : NotificationState}
    {args : List String} (h : show_notification st args = .ok s') :
    ∃ a3 a4, args.get? 3 = some a3 ∧ args.get? 4 = some a4 ∧
      s' = { summary := some (join_on_space a3),
             body := some (join_on_space a4), urgent := true } := by
  cases h4 : args.get? 4 with
  | none =>
      unfold show_notification at h
      rw [h4] at h
      exact Except.noConfusion h
  | some a4 =>
      cases h3 : args.get? 3 with
      | none =>
          unfold show_notification at h
          rw [h4, h3] at h
          exact Except.noConfusion h
      | some a3 =>
          unfold show_notification at h
          rw [h4, h3] at h
          have h' : (Except.ok ⟨some (join_on_space a3),
              some (join_on_space a4), true⟩ :
              Except NotificationState NotificationState) = .ok s' := h
          injection h' with h2
          exact ⟨a3, a4, rfl, rfl, h2.symm⟩

/-! ## Claims C4, C5, C6, C7 — backend parse rules -/

/-- C4: for every output string, the generic parser's count equals the
number of lines in the output, and the apt and apk parsers' counts equal
`max 0 (lines - 1)`; on empty output all three report 0. -/
theorem C4_parser_counts (s : String) :
    count_updates .generic (.ok s) = .ok ((splitlines s).length) ∧
    (∃ n, count_updates .apt (.ok s) = .ok n ∧
      (n : Int) = max 0 (((splitlines s).length : Int) - 1)) ∧
    (∃ n, count_updates .apk (.ok s) = .ok n ∧
      (n : Int) = max 0 (((splitlines s).length : Int) - 1)) ∧
    count_updates .generic (.ok "") = .ok 0 ∧
    count_updates .apt (.ok "") = .ok 0 ∧
    count_updates .apk (.ok "") = .ok 0 :=
  ⟨rfl, ⟨_, rfl, length_drop_one_eq_max _⟩, ⟨_, rfl, length_drop_one_eq_max _⟩,
   rfl, rfl, rfl⟩

/-- C5: the cower backend inverts exit-status semantics: a failing command
with an n-line error payload reports count n (a 5-line payload gives 5),
while a clean exit reports 0. -/
theorem C5_cower_inverted (o : String) :
    count_updates .cower (.err o) = .ok ((splitlines o).length) ∧
    count_updates .cower (.ok o) = .ok 0 ∧
    count_updates .cower (.err "a 1.0\nb 1.0\nc 1.0\nd 1.0\ne 1.0") = .ok 5 :=
  ⟨rfl, rfl, rfl⟩

/-- C6: for every eopkg success output, if it contains the literal phrase
"No packages to upgrade." the count is 0; otherwise the count is the
number of output lines. -/
theorem C6_eopkg_phrase (s : String) :
    (py_contains "No packages to upgrade." s = true →
      count_updates .eopkg (.ok s) = .ok 0) ∧
    (py_contains "No packages to upgrade." s = false →
      count_updates .eopkg (.ok s) = .ok ((splitlines s).length)) := by
  constructor <;> intro h <;>
    simp [count_updates, get_command_output, Eopkg.get_command_output, h,
      Except.map, splitlines, py_split_nl]

/-- C6 witness: the exact phrase with trailing newlines reports 0. -/
theorem C6_eopkg_phrase_witness :
    py_contains "No packages to upgrade." "No packages to upgrade.\n\n" = true ∧
    count_updates .eopkg (.ok "No packages to upgrade.\n\n") = .ok 0 :=
  ⟨rfl, (C6_eopkg_phrase _).1 rfl⟩

/-- A zypper output of the shape of end-to-end scenario 4: 2 blank lines,
then 4 header lines, then 34 data lines. -/
def zypper_sample : String :=
  String.intercalate "\n"
    (List.replicate 2 "" ++
     ["Loading...", "Reading...", "S | Name", "--+------"] ++
     List.replicate 34 "v | zlib")

set_option maxRecDepth 4000 in
/-- C7: the zypper count discards blank lines, drops the next 4 lines and
counts the rest; 4 or fewer non-blank lines give 0, and the scenario-4
sample (2 blank + 4 header + 34 data lines) gives 34. -/
theorem C7_zypper_rule (s : String) :
    count_updates .zypper (.ok s) =
      .ok ((((splitlines s).filter fun x => x != "").drop 4).length) ∧
    (((splitlines s).filter fun x => x != "").length ≤ 4 →
      count_updates .zypper (.ok s) = .ok 0) ∧
    count_updates .zypper (.ok zypper_sample) = .ok 34 := by
  refine ⟨rfl, fun h => ?_, rfl⟩
  have hz : ((((splitlines s).filter fun x => x != "").drop 4).length) = 0 := by
    rw [List.length_drop]; omega
  show (Except.ok ((((splitlines s).filter fun x => x != "").drop 4).length) :
    Except String Nat) = .ok 0
  rw [hz]

/-- C7 witness: a zypper output with only 3 non-blank lines reports 0. -/
theorem C7_zypper_rule_witness :
    ((splitlines "\nLoading repository data...\nReading installed packages...\nNo updates found.").filter fun x => x != "").length ≤ 4 ∧
    count_updates .zypper
      (.ok "\nLoading repository data...\nReading installed packages...\nNo updates found.") = .ok 0 :=
  ⟨by decide, (C7_zypper_rule _).2.1 (by decide)⟩

/-! ## Claims C8, C10 — the notification handler -/

/-- C8: on a matching bus message the handler takes argument 3 as summary
and argument 4 as body, storing each with every embedded newline replaced
by a single space; the scenario body "Cops just left.\nYou can come in
now." is stored as "Cops just left. You can come in now.". -/
theorem C8_handler_fields (st : NotificationState) (args : List String)
    (a3 a4 : String) (h3 : args.get? 3 = some a3) (h4 : args.get? 4 = some a4) :
    show_notification st args =
      .ok { summary := some (join_on_space a3),
            body := some (join_on_space a4), urgent := true } ∧
    join_on_space "Cops just left.\nYou can come in now." =
      "Cops just left. You can come in now." := by
  constructor
  · unfold show_notification
    rw [h4, h3]
  · rfl

/-- C8 witness: the scenario-5 notification is stored normalized. -/
theorem C8_handler_fields_witness :
    show_notification hide_notification
      ["pidgin", "0", "icon", "You received 1 new message",
       "Cops just left.\nYou can come in now."] =
      .ok { summary := some "You received 1 new message",
            body := some "Cops just left. You can come in now.",
            urgent := true } :=
  (C8_handler_fields hide_notification
    ["pidgin", "0", "icon", "You received 1 new message",
     "Cops just left.\nYou can come in now."]
    "You received 1 new message" "Cops just left.\nYou can come in now."
    rfl rfl).1

/-- C10: a matching message with fewer than five positional arguments
makes the handler fail with an index error before any field is written:
the state carried at the raise point is the unchanged input state. -/
theorem C10_short_args (st : NotificationState) (args : List String)
    (h : args.length < 5) : show_notification st args = .error st := by
  have h4 : args.get? 4 = none := List.get?_eq_none.mpr (by omega)
  unfold show_notification
  rw [h4]

/-- C10 witness: a four-argument message leaves the state untouched. -/
theorem C10_short_args_witness :
    show_notification hide_notification ["pidgin", "0", "icon", "summary only"] =
      .error hide_notification :=
  C10_short_args hide_notification _ (by decide)

/-! ## Claim C2 — the NotificationState invariant -/

/-- C2 counterexample: a notification whose summary and body arguments are
both empty strings drives the watcher into a reachable state with
`urgent = true` while summary and body are both empty — the claimed
invariant `urgent ↔ (summary or body non-empty)` fails there. -/
theorem C2_empty_notification_counterexample :
    ∃ s : NotificationState, Reachable s ∧ s.urgent = true ∧
      s.summary = some "" ∧ s.body = some "" :=
  ⟨{ summary := some "", body := some "", urgent := true },
   Reachable.notify hide_notification _ ["", "", "", "", ""] Reachable.init rfl,
   rfl, rfl, rfl⟩

/-- C2 amended: at every observable instant of the watcher's lifecycle,
`urgent = true` exactly when summary and body are *set* (not `None`) — the
three fields are set together and cleared together — but a notification
carrying empty summary and body yields `urgent = true` with both fields
equal to the empty string. -/
theorem C2_urgent_iff_fields_set (s : NotificationState) (h : Reachable s) :
    (s.urgent = true ↔ s.summary ≠ none ∧ s.body ≠ none) ∧
    (s.summary = none ↔ s.body = none) := by
  induction h with
  | init => simp [hide_notification]
  | notify s s' args hr hok ih =>
      obtain ⟨a3, a4, -, -, rfl⟩ := show_notification_ok_shape hok
      simp
  | clear s hr ih => simp [hide_notification]

/-- C2 witness: the initial state satisfies the amended invariant. -/
theorem C2_urgent_iff_fields_set_witness :
    ((hide_notification.urgent = true ↔
        hide_notification.summary ≠ none ∧ hide_notification.body ≠ none) ∧
      (hide_notification.summary = none ↔ hide_notification.body = none)) :=
  C2_urgent_iff_fields_set hide_notification Reachable.init

/-! ## Claim C9 — poll determinism and freshness -/

/-- Every key of `dict_update d name c` is a key of `d` or is `name`. -/
theorem dict_update_keys {d : List (String × Nat)} {name : String} {c : Nat}
    {p : String × Nat} (hp : p ∈ dict_update d name c) :
    p.1 ∈ d.map Prod.fst ∨ p.1 = name := by
  unfold dict_update at hp
  split at hp
  · obtain ⟨q, hq, hpq⟩ := List.mem_map.mp hp
    by_cases hqn : q.1 = name
    · right
      rw [if_pos hqn] at hpq
      rw [← hpq]
    · left
      rw [if_neg hqn] at hpq
      rw [← hpq]
      exact List.mem_map_of_mem _ hq
  · rcases List.mem_append.mp hp with hd | hn
    · exact Or.inl (List.mem_map_of_mem _ hd)
    · right
      rw [List.mem_singleton.mp hn]

/-- Every key of a mapping produced by `updates_loop` comes from the
accumulator or from the backend list. -/
theorem updates_loop_keys :
    ∀ (bs : List (String × BackendKind)) (d : List (String × Nat))
      (r : String → CmdResult) (m : List (String × Nat)),
      updates_loop d bs r = .ok m →
      ∀ p ∈ m, p.1 ∈ d.map Prod.fst ∨ p.1 ∈ bs.map Prod.fst := by
  intro bs
  induction bs with
  | nil =>
      intro d r m h p hp
      injection h with h
      rw [← h] at hp
      exact Or.inl (List.mem_map_of_mem _ hp)
  | cons b rest ih =>
      intro d r m h p hp
      unfold updates_loop at h
      split at h
      · exact Except.noConfusion h
      · rcases ih _ _ _ h p hp with hk | hk
        · obtain ⟨q, hq, hpq⟩ := List.mem_map.mp hk
          rcases dict_update_keys hq with hq1 | hq1
          · exact Or.inl (hpq ▸ hq1)
          · refine Or.inr ?_
            rw [← hpq, hq1]
            exact List.mem_cons_self _ _
        · exact Or.inr (List.mem_cons_of_mem _ hk)

/-- The loop `updates_loop` only reads the outcomes of the listed backends. -/
theorem updates_loop_congr :
    ∀ (bs : List (String × BackendKind)) (d : List (String × Nat))
      (r1 r2 : String → CmdResult),
      (∀ b ∈ bs, r1 b.1 = r2 b.1) →
      updates_loop d bs r1 = updates_loop d bs r2 := by
  intro bs
  induction bs with
  | nil => intro d r1 r2 _; rfl
  | cons b rest ih =>
      intro d r1 r2 h
      unfold updates_loop
      rw [h b (List.mem_cons_self _ _)]
      cases count_updates b.2 (r2 b.1) with
      | error e => rfl
      | ok c => exact ih _ _ _ fun x hx => h x (List.mem_cons_of_mem _ hx)

/-- C9: the poll is deterministic and stateless: the mapping is a function
of the fixed backend list and this poll's outputs alone (two polls in
which every active backend produces the same outcome yield identical
mappings), and a successful mapping carries only keys of currently active
backends — no cross-poll accumulation, no stale entries. -/
theorem C9_poll_deterministic (backends : List (String × BackendKind))
    (r1 r2 : String → CmdResult)
    (h : ∀ b ∈ backends, r1 b.1 = r2 b.1) :
    updates backends r1 = updates backends r2 ∧
    ∀ m, updates backends r1 = .ok m →
      ∀ p ∈ m, p.1 ∈ backends.map Prod.fst := by
  constructor
  · exact updates_loop_congr backends [] r1 r2 h
  · intro m hm p hp
    rcases updates_loop_keys backends [] r1 m hm p hp with hk | hk
    · simp at hk
    · exact hk

/-- C9 witness: two polls of an apt backend whose child processes behave
identically on the names the poll queries (though the second result
function differs elsewhere) produce the same mapping, whose only key is
the active backend's name. -/
theorem C9_poll_deterministic_witness :
    (updates [("apt", .apt)] (fun _ => CmdResult.ok "hdr\naaa\nbbb") =
      updates [("apt", .apt)]
        (fun n => if n = "apt" then CmdResult.ok "hdr\naaa\nbbb"
                  else CmdResult.err "absent")) ∧
    ∀ m, updates [("apt", .apt)] (fun _ => CmdResult.ok "hdr\naaa\nbbb") = .ok m →
      ∀ p ∈ m, p.1 ∈ ([("apt", BackendKind.apt)].map Prod.fst) :=
  C9_poll_deterministic [("apt", .apt)] _ _
    (by
      intro b hb
      rw [List.mem_singleton.mp hb]
      rfl)

/-! ## Claim C1 — per-backend fault isolation -/

/-- Every backend class other than `Eopkg` turns any command outcome,
including a failing one, into a successful count. -/
theorem count_updates_ok_of_ne_eopkg {k : BackendKind}
    (hk : k ≠ BackendKind.eopkg) (r : CmdResult) :
    ∃ n, count_updates k r = .ok n := by
  cases k <;> cases r <;>
    first
      | exact absurd rfl hk
      | exact ⟨_, rfl⟩

/-- A poll over backends none of which is the eopkg class always
succeeds. -/
theorem updates_loop_ok_of_no_eopkg :
    ∀ (bs : List (String × BackendKind)) (d : List (String × Nat))
      (r : String → CmdResult),
      (∀ b ∈ bs, b.2 ≠ BackendKind.eopkg) →
      ∃ m, updates_loop d bs r = .ok m := by
  intro bs
  induction bs with
  | nil => exact fun d r _ => ⟨d, rfl⟩
  | cons b rest ih =>
      intro d r h
      obtain ⟨n, hn⟩ :=
        count_updates_ok_of_ne_eopkg (h b (List.mem_cons_self _ _)) (r b.1)
      unfold updates_loop
      rw [hn]
      exact ih _ _ fun x hx => h x (List.mem_cons_of_mem _ hx)

/-- C1 counterexample: in a poll over an eopkg backend and an apt backend,
the eopkg child process failing makes the whole `updates` operation raise
instead of treating the output as empty — the apt backend's count never
reaches the mapping. -/
theorem C1_eopkg_aborts_poll_counterexample :
    updates [("eopkg", BackendKind.eopkg), ("apt", BackendKind.apt)]
      (fun n => if n = "eopkg" then CmdResult.err "eopkg error"
                else CmdResult.ok "hdr\npkg1") =
      .error "eopkg error" :=
  rfl

/-- C1 amended: a failing command is recovered locally by every backend
class except two: the base class (used by the generic, apt, apk and zypper
backends) substitutes the empty string, cower substitutes the error's
payload, but eopkg installs no handler, so its `CommandError` propagates;
a poll whose backends avoid the eopkg class never aborts. -/
theorem C1_fault_isolation (backends : List (String × BackendKind))
    (results : String → CmdResult) (o : String)
    (h : ∀ b ∈ backends, b.2 ≠ BackendKind.eopkg) :
    (∀ k, k ≠ BackendKind.eopkg → k ≠ BackendKind.cower →
      get_command_output k (.err o) = .ok "") ∧
    get_command_output .cower (.err o) = .ok o ∧
    get_command_output .eopkg (.err o) = .error o ∧
    ∃ m, updates backends results = .ok m := by
  refine ⟨fun k hk1 hk2 => ?_, rfl, rfl,
    updates_loop_ok_of_no_eopkg backends [] results h⟩
  cases k <;>
    first
      | exact absurd rfl hk1
      | exact absurd rfl hk2
      | rfl

/-- C1 witness: a poll over pacman, cower and zypper backends whose
commands all fail still succeeds. -/
theorem C1_fault_isolation_witness :
    (∀ b ∈ [("pacman", BackendKind.generic), ("cower", BackendKind.cower),
        ("zypper", BackendKind.zypper)], b.2 ≠ BackendKind.eopkg) ∧
    ∃ m, updates [("pacman", BackendKind.generic), ("cower", BackendKind.cower),
        ("zypper", BackendKind.zypper)] (fun _ => CmdResult.err "broken") = .ok m :=
  ⟨by decide,
   (C1_fault_isolation _ (fun _ => CmdResult.err "broken") "broken"
      (by decide)).2.2.2⟩

/-! ## Claim C3 — the pkg backend -/

/-- Inversion for a successful `select_backend`: the selected pair and the
two guard conditions. -/
theorem select_backend_eq_some {cfg : Config} {m : String × List String}
    {p : String × BackendKind} (h : select_backend cfg m = some p) :
    p = (m.1, backend_class m.1) ∧
    (placeholders_of cfg).contains m.1 = true ∧
    ((binaries_of cfg).contains m.1 || cfg.checkCmd (m.2.headD "")) = true := by
  unfold select_backend at h
  split at h
  · rename_i hc
    injection h with h
    rw [Bool.and_eq_true] at hc
    exact ⟨h.symm, hc.1, hc.2⟩
  · exact Option.noConfusion h

/-- C3 counterexample: with an explicit format referencing `{pkg}` and the
pkg binary present, `post_config_hook` does construct a pkg backend (the
generic `Update` fallback), and a poll does put a pkg count into the
mapping: pkg is not "never active". -/
theorem C3_pkg_active_counterexample :
    post_config_backends ⟨some ["pkg"], fun _ => true⟩ =
      [("pkg", BackendKind.generic)] ∧
    updates (post_config_backends ⟨some ["pkg"], fun _ => true⟩)
      (fun _ => CmdResult.ok "quake3-data\nzlib") = .ok [("pkg", 2)] :=
  ⟨rfl, rfl⟩

/-- C3 amended: pkg has no dedicated backend class — the capitalized name
lookup fails and falls back to the generic `Update` line-count parser —
and a pkg backend is constructed exactly when the `{pkg}` placeholder is
referenced by the format and the pkg binary passes the presence probe
(via the startup `binaries` list or a fresh `check_commands` call). -/
theorem C3_pkg_generic_fallback (cfg : Config) (k : BackendKind) :
    ("pkg", k) ∈ post_config_backends cfg ↔
      (k = BackendKind.generic ∧ "pkg" ∈ placeholders_of cfg ∧
        ("pkg" ∈ binaries_of cfg ∨ cfg.checkCmd "pkg" = true)) := by
  constructor
  · intro h
    obtain ⟨m, hm, hsel⟩ := List.mem_filterMap.mp h
    obtain ⟨hp, h1, h2⟩ := select_backend_eq_some hsel
    have hname : m.1 = "pkg" := (congrArg Prod.fst hp).symm
    have hk : k = backend_class m.1 := congrArg Prod.snd hp
    simp only [managers, List.mem_cons, List.not_mem_nil, or_false] at hm
    rcases hm with rfl | rfl | rfl | rfl | rfl | rfl | rfl | rfl | rfl <;>
      first
        | exact absurd hname (by decide)
        | (refine ⟨hk, List.mem_of_elem_eq_true h1, ?_⟩
           rw [Bool.or_eq_true] at h2
           rcases h2 with h2 | h2
           · exact Or.inl (List.mem_of_elem_eq_true h2)
           · exact Or.inr h2)
  · rintro ⟨rfl, hph, hbin⟩
    refine List.mem_filterMap.mpr
      ⟨("pkg", ["pkg", "upgrade", "--dry-run", "--quiet"]),
       by simp [managers], ?_⟩
    have hc : ((placeholders_of cfg).contains "pkg" &&
        ((binaries_of cfg).contains "pkg" ||
          cfg.checkCmd (["pkg", "upgrade", "--dry-run", "--quiet"].headD ""))) = true := by
      rw [Bool.and_eq_true]
      refine ⟨List.elem_eq_true_of_mem hph, ?_⟩
      rw [Bool.or_eq_true]
      rcases hbin with hb | hb
      · exact Or.inl (List.elem_eq_true_of_mem hb)
      · exact Or.inr hb
    unfold select_backend
    simp only [hc, if_true]
    rfl
